import Mathlib

/-!
Shallow embedding of `src/arvdevice.c` (Aravis abstract device class).

Modelling conventions:
* C pointers that may be NULL are `Option`; `none` is NULL.
* A `DeviceHandle` is either NULL (`null`), a pointer to an object that is
  not an `ArvDevice` (`nonDevice`), or a valid device (`device d`); the
  `ARV_IS_DEVICE` type check succeeds exactly on the third case.
* `gint64` is `Int`, `guint32` / `size_t` are `Nat`, C `double` is `Rat`
  (the file only stores and returns doubles, never computes with them).
* Transport virtual methods (the `ArvDeviceClass` vtable entries filled by a
  concrete transport) are function-valued fields of `ArvDeviceClass`.  Each
  public wrapper returns, besides its C result, a `Bool` recording whether
  the virtual method was invoked, so that "fails without invoking the
  transport" is expressible.
* The genicam node classes (`arvgcinteger.c`, `arvgcenumeration.c`, ...) are
  not part of this repository's sources here; their operations are modelled
  from the spec and marked as such in their doc comments.  Nodes form the
  closed variant set {Integer, Float, Boolean, Enumeration, String, Command};
  mutation of a node mutates the tree entry of that feature name (names are
  unique within a tree, per the spec's data model).
-/

/-- Modelled from the spec: the feature-node capability set, a closed variant
set {Integer, Float, Boolean, Enumeration, String, Command}.  Numeric
variants carry an inclusive [min, max] bound; an enumeration carries its
symbolic entries and current integer value; a command records how many times
it has been executed. -/
inductive ArvGcNode where
  | integer (value vmin vmax : Int)
  | float (value vmin vmax : Rat)
  | boolean (value : Bool)
  | enumeration (entries : List (String × Int)) (value : Int)
  | strNode (value : String)
  | command (execCount : Nat)
  deriving DecidableEq

/-- ARV_IS_GC_INTEGER type check on a node. -/
def ArvGcNode.isInteger : ArvGcNode → Bool
  | .integer _ _ _ => true
  | _ => false

/-- ARV_IS_GC_FLOAT type check on a node. -/
def ArvGcNode.isFloat : ArvGcNode → Bool
  | .float _ _ _ => true
  | _ => false

/-- ARV_IS_GC_BOOLEAN type check on a node. -/
def ArvGcNode.isBoolean : ArvGcNode → Bool
  | .boolean _ => true
  | _ => false

/-- ARV_IS_GC_ENUMERATION type check on a node. -/
def ArvGcNode.isEnumeration : ArvGcNode → Bool
  | .enumeration _ _ => true
  | _ => false

/-- ARV_IS_GC_STRING type check on a node. -/
def ArvGcNode.isString : ArvGcNode → Bool
  | .strNode _ => true
  | _ => false

/-- ARV_IS_GC_COMMAND type check on a node. -/
def ArvGcNode.isCommand : ArvGcNode → Bool
  | .command _ => true
  | _ => false

/-- Modelled from the spec: `arv_gc_integer_set_value` stores the value in an
Integer node (external node class). -/
def arv_gc_integer_set_value : ArvGcNode → Int → ArvGcNode
  | .integer _ mn mx, v => .integer v mn mx
  | n, _ => n

/-- Modelled from the spec: `arv_gc_integer_get_value` reads the stored value
of an Integer node (external node class). -/
def arv_gc_integer_get_value : ArvGcNode → Int
  | .integer v _ _ => v
  | _ => 0

/-- Modelled from the spec: `arv_gc_integer_get_min` (external node class). -/
def arv_gc_integer_get_min : ArvGcNode → Int
  | .integer _ mn _ => mn
  | _ => 0

/-- Modelled from the spec: `arv_gc_integer_get_max` (external node class). -/
def arv_gc_integer_get_max : ArvGcNode → Int
  | .integer _ _ mx => mx
  | _ => 0

/-- Modelled from the spec: `arv_gc_float_set_value` (external node class). -/
def arv_gc_float_set_value : ArvGcNode → Rat → ArvGcNode
  | .float _ mn mx, v => .float v mn mx
  | n, _ => n

/-- Modelled from the spec: `arv_gc_float_get_value` (external node class). -/
def arv_gc_float_get_value : ArvGcNode → Rat
  | .float v _ _ => v
  | _ => 0

/-- Modelled from the spec: `arv_gc_float_get_min` (external node class). -/
def arv_gc_float_get_min : ArvGcNode → Rat
  | .float _ mn _ => mn
  | _ => 0

/-- Modelled from the spec: `arv_gc_float_get_max` (external node class). -/
def arv_gc_float_get_max : ArvGcNode → Rat
  | .float _ _ mx => mx
  | _ => 0

/-- Modelled from the spec: `arv_gc_boolean_set_value` coerces its gint64
argument by truthiness, nonzero becoming true (external node class). -/
def arv_gc_boolean_set_value : ArvGcNode → Int → ArvGcNode
  | .boolean _, v => .boolean (v != 0)
  | n, _ => n

/-- Modelled from the spec: `arv_gc_boolean_get_value` returns 0 or 1
(external node class). -/
def arv_gc_boolean_get_value : ArvGcNode → Int
  | .boolean b => if b then 1 else 0
  | _ => 0

/-- Modelled from the spec: `arv_gc_enumeration_set_int_value` stores the
underlying integer value of an Enumeration node (external node class). -/
def arv_gc_enumeration_set_int_value : ArvGcNode → Int → ArvGcNode
  | .enumeration es _, v => .enumeration es v
  | n, _ => n

/-- Modelled from the spec: `arv_gc_enumeration_get_int_value` (external node
class). -/
def arv_gc_enumeration_get_int_value : ArvGcNode → Int
  | .enumeration _ v => v
  | _ => 0

/-- Modelled from the spec: `arv_gc_enumeration_set_string_value` selects the
entry with the given symbolic name, leaving the node unchanged when the
symbol is unknown (external node class). -/
def arv_gc_enumeration_set_string_value : ArvGcNode → String → ArvGcNode
  | .enumeration es v, s =>
      match es.find? (fun p => p.1 == s) with
      | some p => .enumeration es p.2
      | none => .enumeration es v
  | n, _ => n

/-- Modelled from the spec: `arv_gc_enumeration_get_string_value` returns the
symbolic name of the current entry, NULL when none matches (external node
class). -/
def arv_gc_enumeration_get_string_value : ArvGcNode → Option String
  | .enumeration es v => (es.find? (fun p => p.2 == v)).map (fun p => p.1)
  | _ => none

/-- Modelled from the spec: `arv_gc_string_set_value` (external node class). -/
def arv_gc_string_set_value : ArvGcNode → String → ArvGcNode
  | .strNode _, s => .strNode s
  | n, _ => n

/-- Modelled from the spec: `arv_gc_string_get_value` (external node class). -/
def arv_gc_string_get_value : ArvGcNode → Option String
  | .strNode s => some s
  | _ => none

/-- Modelled from the spec: `arv_gc_command_execute` executes a Command node;
the execution count records the side effect (external node class). -/
def arv_gc_command_execute : ArvGcNode → ArvGcNode
  | .command k => .command (k + 1)
  | n => n

/-- Modelled from the spec: the feature tree (`ArvGc`), a name → node map
with unique names. -/
structure ArvGc where
  nodes : List (String × ArvGcNode)
  deriving DecidableEq

/-- Modelled from the spec: `arv_gc_get_node`, name lookup in the feature
tree, NULL when absent. -/
def arv_gc_get_node (gc : ArvGc) (feature : String) : Option ArvGcNode :=
  (gc.nodes.find? (fun p => p.1 == feature)).map (fun p => p.2)

/-- Replacement of the node bound to a feature name; this is how in-place C
mutation of a looked-up node is reflected in the tree (names are unique). -/
def ArvGc.updateNode (gc : ArvGc) (feature : String) (n : ArvGcNode) : ArvGc :=
  ⟨gc.nodes.map (fun p => if p.1 == feature then (p.1, n) else p)⟩

/-- Default-or-overridden state of the `get_genicam_xml` class method:
`arv_device_class_init` installs `_get_genicam_xml` as the default, and a
transport may replace it with its own accessor returning a blob and a size. -/
inductive GXmlImpl where
  | dflt
  | override (blob : Option String) (len : Nat)

/-- The `ArvDeviceClass` vtable entries a concrete transport fills in.
Streams, callbacks and buffers are opaque (`Nat` identifiers).
`read_register` receives the address and the prior contents of the output
cell and returns the success flag and the new cell contents. -/
structure ArvDeviceClass where
  create_stream : Nat → Nat → Option Nat
  read_memory : Nat → Nat → Nat → Bool
  write_memory : Nat → Nat → Nat → Bool
  read_register : Nat → Nat → Bool × Nat
  write_register : Nat → Nat → Bool
  genicam_xml : GXmlImpl

/-- An `ArvDevice` instance: its genicam feature tree (`none` models a NULL
or invalid tree, so that the `ARV_IS_GC` check fails) and its class. -/
structure ArvDevice where
  genicam : Option ArvGc
  klass : ArvDeviceClass

/-- A C `ArvDevice *` argument: NULL, a pointer to some non-device object, or
a device.  `ARV_IS_DEVICE` succeeds only on `device`. -/
inductive DeviceHandle where
  | null
  | nonDevice
  | device (d : ArvDevice)

/-- ARV_IS_DEVICE type check on a handle. -/
def isArvDevice : DeviceHandle → Bool
  | .device _ => true
  | _ => false

/-- `arv_device_create_stream`: guarded delegation to the transport's stream
factory.  Second component: whether the virtual method was invoked. -/
def arv_device_create_stream (h : DeviceHandle) (cb ud : Nat) :
    Option Nat × Bool :=
  match h with
  | .device d => (d.klass.create_stream cb ud, true)
  | _ => (none, false)

/-- `arv_device_read_memory`: checks ARV_IS_DEVICE, buffer non-NULL and
size > 0 before delegating.  Second component: whether the virtual method was
invoked. -/
def arv_device_read_memory (h : DeviceHandle) (address size : Nat)
    (buffer : Option Nat) : Bool × Bool :=
  match h with
  | .device d =>
      match buffer with
      | some b =>
          if size > 0 then (d.klass.read_memory address size b, true)
          else (false, false)
      | none => (false, false)
  | _ => (false, false)

/-- `arv_device_write_memory`: same guards as `arv_device_read_memory`. -/
def arv_device_write_memory (h : DeviceHandle) (address size : Nat)
    (buffer : Option Nat) : Bool × Bool :=
  match h with
  | .device d =>
      match buffer with
      | some b =>
          if size > 0 then (d.klass.write_memory address size b, true)
          else (false, false)
      | none => (false, false)
  | _ => (false, false)

/-- `arv_device_read_register`: checks ARV_IS_DEVICE and value non-NULL.
Result: ((success, contents of the value cell after the call), whether the
virtual method was invoked). -/
def arv_device_read_register (h : DeviceHandle) (address : Nat)
    (valuePtr : Option Nat) : (Bool × Option Nat) × Bool :=
  match h with
  | .device d =>
      match valuePtr with
      | some v0 =>
          let r := d.klass.read_register address v0
          ((r.1, some r.2), true)
      | none => ((false, none), false)
  | _ => ((false, valuePtr), false)

/-- `arv_device_write_register`: checks ARV_IS_DEVICE before delegating. -/
def arv_device_write_register (h : DeviceHandle) (address value : Nat) :
    Bool × Bool :=
  match h with
  | .device d => (d.klass.write_register address value, true)
  | _ => (false, false)

/-- `arv_device_get_genicam`: NULL on a non-device handle, otherwise the
genicam interface held by the implementation. -/
def arv_device_get_genicam : DeviceHandle → Option ArvGc
  | .device d => d.genicam
  | _ => none

/-- `arv_device_get_genicam_xml`: checks ARV_IS_DEVICE and size non-NULL,
then calls the class method (the `_get_genicam_xml` default writes 0 to the
size cell and returns NULL).  Result: ((returned blob, contents of the size
cell after the call), whether the class method was invoked). -/
def arv_device_get_genicam_xml (h : DeviceHandle) (sizePtr : Option Nat) :
    (Option String × Option Nat) × Bool :=
  match h with
  | .device d =>
      match sizePtr with
      | some _ =>
          match d.klass.genicam_xml with
          | .dflt => ((none, some 0), true)
          | .override blob len => ((blob, some len), true)
      | none => ((none, none), false)
  | _ => ((none, sizePtr), false)

/-- `arv_device_get_feature`: genicam lookup guarded by ARV_IS_GC. -/
def arv_device_get_feature (h : DeviceHandle) (feature : String) :
    Option ArvGcNode :=
  match arv_device_get_genicam h with
  | some gc => arv_gc_get_node gc feature
  | none => none

/-- Replacement of the node bound to `feature` inside the handle's genicam;
reflects in-place C mutation of the looked-up node. -/
def updateFeature : DeviceHandle → String → ArvGcNode → DeviceHandle
  | .device d, feature, n =>
      .device ⟨d.genicam.map (fun gc => gc.updateNode feature n), d.klass⟩
  | h, _, _ => h

/-- `arv_device_execute_command`: requires a valid genicam, then executes the
node only when ARV_IS_GC_COMMAND holds. -/
def arv_device_execute_command (h : DeviceHandle) (feature : String) :
    DeviceHandle :=
  match arv_device_get_genicam h with
  | some gc =>
      match arv_gc_get_node gc feature with
      | some n =>
          if n.isCommand then updateFeature h feature (arv_gc_command_execute n)
          else h
      | none => h
  | none => h

/-- `arv_device_set_string_feature_value`: Enumeration first, then String,
otherwise no-op. -/
def arv_device_set_string_feature_value (h : DeviceHandle) (feature : String)
    (value : String) : DeviceHandle :=
  match arv_device_get_feature h feature with
  | some n =>
      if n.isEnumeration then
        updateFeature h feature (arv_gc_enumeration_set_string_value n value)
      else if n.isString then
        updateFeature h feature (arv_gc_string_set_value n value)
      else h
  | none => h

/-- `arv_device_get_string_feature_value`: Enumeration first, then String,
otherwise NULL. -/
def arv_device_get_string_feature_value (h : DeviceHandle) (feature : String) :
    Option String :=
  match arv_device_get_feature h feature with
  | some n =>
      if n.isEnumeration then arv_gc_enumeration_get_string_value n
      else if n.isString then arv_gc_string_get_value n
      else none
  | none => none

/-- `arv_device_set_integer_feature_value`: Integer, then Enumeration, then
Boolean, otherwise no-op. -/
def arv_device_set_integer_feature_value (h : DeviceHandle) (feature : String)
    (value : Int) : DeviceHandle :=
  match arv_device_get_feature h feature with
  | some n =>
      if n.isInteger then
        updateFeature h feature (arv_gc_integer_set_value n value)
      else if n.isEnumeration then
        updateFeature h feature (arv_gc_enumeration_set_int_value n value)
      else if n.isBoolean then
        updateFeature h feature (arv_gc_boolean_set_value n value)
      else h
  | none => h

/-- `arv_device_get_integer_feature_value`: Integer, then Enumeration, then
Boolean, otherwise the 0 sentinel. -/
def arv_device_get_integer_feature_value (h : DeviceHandle)
    (feature : String) : Int :=
  match arv_device_get_feature h feature with
  | some n =>
      if n.isInteger then arv_gc_integer_get_value n
      else if n.isEnumeration then arv_gc_enumeration_get_int_value n
      else if n.isBoolean then arv_gc_boolean_get_value n
      else 0
  | none => 0

/-- `arv_device_get_integer_feature_bounds`: writes the non-NULL output cells
only for an Integer node.  The arguments carry the prior contents of the min
and max cells (`none` is a NULL pointer); the result is their contents after
the call. -/
def arv_device_get_integer_feature_bounds (h : DeviceHandle)
    (feature : String) (minPtr maxPtr : Option Int) : Option Int × Option Int :=
  match arv_device_get_feature h feature with
  | some n =>
      if n.isInteger then
        (minPtr.map (fun _ => arv_gc_integer_get_min n),
         maxPtr.map (fun _ => arv_gc_integer_get_max n))
      else (minPtr, maxPtr)
  | none => (minPtr, maxPtr)

/-- `arv_device_set_float_feature_value`: Float only, otherwise no-op. -/
def arv_device_set_float_feature_value (h : DeviceHandle) (feature : String)
    (value : Rat) : DeviceHandle :=
  match arv_device_get_feature h feature with
  | some n =>
      if n.isFloat then updateFeature h feature (arv_gc_float_set_value n value)
      else h
  | none => h

/-- `arv_device_get_float_feature_value`: Float only, otherwise the 0.0
sentinel. -/
def arv_device_get_float_feature_value (h : DeviceHandle)
    (feature : String) : Rat :=
  match arv_device_get_feature h feature with
  | some n =>
      if n.isFloat then arv_gc_float_get_value n
      else 0
  | none => 0

/-- `arv_device_get_float_feature_bounds`: writes the non-NULL output cells
only for a Float node; same cell convention as the integer bounds. -/
def arv_device_get_float_feature_bounds (h : DeviceHandle) (feature : String)
    (minPtr maxPtr : Option Rat) : Option Rat × Option Rat :=
  match arv_device_get_feature h feature with
  | some n =>
      if n.isFloat then
        (minPtr.map (fun _ => arv_gc_float_get_min n),
         maxPtr.map (fun _ => arv_gc_float_get_max n))
      else (minPtr, maxPtr)
  | none => (minPtr, maxPtr)

/-- `arv_device_emit_control_lost_signal`: emits the control-lost signal only
on a valid device handle; the result records whether it was emitted. -/
def arv_device_emit_control_lost_signal : DeviceHandle → Bool
  | .device _ => true
  | _ => false

/-! Concrete fixtures used by the witness theorems. -/

/-- A transport vtable whose XML accessor is the class_init default. -/
def demoClass : ArvDeviceClass :=
  ⟨fun _ _ => some 7, fun _ _ _ => true, fun _ _ _ => true,
   fun _ v0 => (true, v0 + 1), fun _ _ => true, GXmlImpl.dflt⟩

/-- A small feature tree holding one node of each variant. -/
def demoGc : ArvGc :=
  ⟨[("Gain", .integer 5 0 10),
    ("PixelFormat", .enumeration [("Mono8", 0), ("RGB8", 1)] 0),
    ("ReverseX", .boolean false),
    ("FrameRate", .float 2 0 100),
    ("DeviceID", .strNode "cam0"),
    ("AcquisitionStart", .command 0)]⟩

/-- A valid device backed by `demoClass` with `demoGc` as feature tree. -/
def demoDev : ArvDevice := ⟨some demoGc, demoClass⟩

/-- The handle to `demoDev`. -/
def demoHandle : DeviceHandle := .device demoDev

/-! Helper lemmas about tree update. -/

/-- Looking a name up after replacing that name's node finds the replacement,
provided the name was bound before. -/
theorem find_map_update (l : List (String × ArvGcNode)) (f : String)
    (n' : ArvGcNode) :
    (l.map (fun p => if p.1 == f then (p.1, n') else p)).find?
        (fun p => p.1 == f) =
      (l.find? (fun p => p.1 == f)).map (fun p => (p.1, n')) := by
  induction l with
  | nil => rfl
  | cons p t ih =>
      by_cases hp : p.1 == f
      · simp [List.find?, hp]
      · simp only [List.map_cons, List.find?, hp, if_neg, Bool.false_eq_true,
          not_false_eq_true, if_false]
        simpa [hp] using ih

/-- Node lookup after `ArvGc.updateNode` at the same name. -/
theorem get_node_updateNode (gc : ArvGc) (f : String) (n n' : ArvGcNode)
    (hf : arv_gc_get_node gc f = some n) :
    arv_gc_get_node (gc.updateNode f n') f = some n' := by
  unfold arv_gc_get_node ArvGc.updateNode
  unfold arv_gc_get_node at hf
  rw [find_map_update]
  cases hfind : gc.nodes.find? (fun p => p.1 == f) with
  | none => rw [hfind] at hf; simp at hf
  | some p => simp

/-- Feature lookup after `updateFeature` at the same name. -/
theorem get_feature_updateFeature (h : DeviceHandle) (f : String)
    (n n' : ArvGcNode) (hf : arv_device_get_feature h f = some n) :
    arv_device_get_feature (updateFeature h f n') f = some n' := by
  cases h with
  | null => simp [arv_device_get_feature, arv_device_get_genicam] at hf
  | nonDevice => simp [arv_device_get_feature, arv_device_get_genicam] at hf
  | device d =>
      cases hg : d.genicam with
      | none =>
          simp [arv_device_get_feature, arv_device_get_genicam, hg] at hf
      | some gc =>
          simp only [arv_device_get_feature, arv_device_get_genicam, hg] at hf
          simp only [updateFeature, arv_device_get_feature,
            arv_device_get_genicam, hg, Option.map_some]
          exact get_node_updateNode gc f n n' hf

/-- C3: read_memory and write_memory with size 0 or a NULL buffer return
FALSE and never invoke the transport virtual method, for every handle. -/
theorem claim_C3_memory_guards (h : DeviceHandle) (address size : Nat)
    (buffer : Option Nat) (hbad : size = 0 ∨ buffer = none) :
    arv_device_read_memory h address size buffer = (false, false) ∧
    arv_device_write_memory h address size buffer = (false, false) := by
  cases h with
  | null => exact ⟨rfl, rfl⟩
  | nonDevice => exact ⟨rfl, rfl⟩
  | device d =>
      cases hbad with
      | inl hsz =>
          cases buffer with
          | none => exact ⟨rfl, rfl⟩
          | some b => subst hsz; exact ⟨rfl, rfl⟩
      | inr hbuf => subst hbuf; exact ⟨rfl, rfl⟩

/-- C3 witness: concrete rejected calls on the demo device. -/
theorem claim_C3_memory_guards_witness :
    arv_device_read_memory demoHandle 16 0 (some 3) = (false, false) ∧
    arv_device_write_memory demoHandle 16 4 none = (false, false) := by
  exact ⟨(claim_C3_memory_guards demoHandle 16 0 (some 3) (Or.inl rfl)).1,
         (claim_C3_memory_guards demoHandle 16 4 none (Or.inr rfl)).2⟩

/-- C4: every public operation invoked on a NULL or non-device handle returns
its sentinel (NULL, FALSE, or returns without emitting) and never reaches a
transport virtual method, for every choice of the remaining arguments. -/
theorem claim_C4_handle_guards (h : DeviceHandle) (cb ud address size value : Nat)
    (buffer : Option Nat) (valuePtr : Option Nat) (sizePtr : Option Nat)
    (hbad : isArvDevice h = false) :
    arv_device_create_stream h cb ud = (none, false) ∧
    arv_device_read_memory h address size buffer = (false, false) ∧
    arv_device_write_memory h address size buffer = (false, false) ∧
    arv_device_read_register h address valuePtr = ((false, valuePtr), false) ∧
    arv_device_write_register h address value = (false, false) ∧
    arv_device_get_genicam h = none ∧
    arv_device_get_genicam_xml h sizePtr = ((none, sizePtr), false) ∧
    arv_device_emit_control_lost_signal h = false := by
  cases h with
  | null =>
      exact ⟨rfl, rfl, rfl, rfl, rfl, rfl, rfl, rfl⟩
  | nonDevice =>
      exact ⟨rfl, rfl, rfl, rfl, rfl, rfl, rfl, rfl⟩
  | device d => simp [isArvDevice] at hbad

/-- C4 witness: concrete sentinel results on the NULL handle. -/
theorem claim_C4_handle_guards_witness :
    arv_device_create_stream DeviceHandle.null 1 2 = (none, false) ∧
    arv_device_read_register DeviceHandle.null 8 (some 5) =
      ((false, some 5), false) ∧
    arv_device_emit_control_lost_signal DeviceHandle.null = false := by
  have h := claim_C4_handle_guards DeviceHandle.null 1 2 8 4 9
    (some 3) (some 5) (some 6) rfl
  exact ⟨h.1, h.2.2.2.1, h.2.2.2.2.2.2.2⟩

/-- C5: on a valid device whose class keeps the default XML accessor, the
wrapper writes 0 to the size cell and returns NULL, as the defined
fallback. -/
theorem claim_C5_default_xml (d : ArvDevice) (s0 : Nat)
    (hdef : d.klass.genicam_xml = GXmlImpl.dflt) :
    arv_device_get_genicam_xml (.device d) (some s0) = ((none, some 0), true) := by
  simp [arv_device_get_genicam_xml, hdef]

/-- C5 witness: the demo device keeps the class_init default. -/
theorem claim_C5_default_xml_witness :
    arv_device_get_genicam_xml (.device demoDev) (some 42) =
      ((none, some 0), true) :=
  claim_C5_default_xml demoDev 42 rfl

/-- C10: on every valid device, read_register with a NULL value pointer
returns FALSE and get_genicam_xml with a NULL size pointer returns NULL,
in both cases without invoking the class method. -/
theorem claim_C10_null_output_guards (d : ArvDevice) (address : Nat) :
    arv_device_read_register (.device d) address none = ((false, none), false) ∧
    arv_device_get_genicam_xml (.device d) none = ((none, none), false) :=
  ⟨rfl, rfl⟩

/-- C1: integer-like access dispatches on the resolved node's variant in the
order Integer, then Enumeration, then Boolean; no other variant is coerced;
when the node matches none of the three (or the name does not resolve) the
set is a no-op and the get returns the 0 sentinel. -/
theorem claim_C1_integer_dispatch (h : DeviceHandle) (f : String) (v : Int) :
    (∀ n, arv_device_get_feature h f = some n → n.isInteger = true →
        arv_device_set_integer_feature_value h f v =
          updateFeature h f (arv_gc_integer_set_value n v) ∧
        arv_device_get_integer_feature_value h f =
          arv_gc_integer_get_value n) ∧
    (∀ n, arv_device_get_feature h f = some n → n.isInteger = false →
        n.isEnumeration = true →
        arv_device_set_integer_feature_value h f v =
          updateFeature h f (arv_gc_enumeration_set_int_value n v) ∧
        arv_device_get_integer_feature_value h f =
          arv_gc_enumeration_get_int_value n) ∧
    (∀ n, arv_device_get_feature h f = some n → n.isInteger = false →
        n.isEnumeration = false → n.isBoolean = true →
        arv_device_set_integer_feature_value h f v =
          updateFeature h f (arv_gc_boolean_set_value n v) ∧
        arv_device_get_integer_feature_value h f =
          arv_gc_boolean_get_value n) ∧
    (∀ n, arv_device_get_feature h f = some n → n.isInteger = false →
        n.isEnumeration = false → n.isBoolean = false →
        arv_device_set_integer_feature_value h f v = h ∧
        arv_device_get_integer_feature_value h f = 0) ∧
    (arv_device_get_feature h f = none →
        arv_device_set_integer_feature_value h f v = h ∧
        arv_device_get_integer_feature_value h f = 0) := by
  refine ⟨?_, ?_, ?_, ?_, ?_⟩
  · intro n hn hi
    constructor <;>
      simp [arv_device_set_integer_feature_value,
        arv_device_get_integer_feature_value, hn, hi]
  · intro n hn hi he
    constructor <;>
      simp [arv_device_set_integer_feature_value,
        arv_device_get_integer_feature_value, hn, hi, he]
  · intro n hn hi he hb
    constructor <;>
      simp [arv_device_set_integer_feature_value,
        arv_device_get_integer_feature_value, hn, hi, he, hb]
  · intro n hn hi he hb
    constructor <;>
      simp [arv_device_set_integer_feature_value,
        arv_device_get_integer_feature_value, hn, hi, he, hb]
  · intro hn
    constructor <;>
      simp [arv_device_set_integer_feature_value,
        arv_device_get_integer_feature_value, hn]

/-- C1 witness: the Command node degrades silently; the Integer node is read
through the Integer path. -/
theorem claim_C1_integer_dispatch_witness :
    arv_device_set_integer_feature_value demoHandle "AcquisitionStart" 7 =
      demoHandle ∧
    arv_device_get_integer_feature_value demoHandle "AcquisitionStart" = 0 ∧
    arv_device_get_integer_feature_value demoHandle "Gain" = 5 := by
  have hno := (claim_C1_integer_dispatch demoHandle "AcquisitionStart" 7).2.2.2.1
    (ArvGcNode.command 0) rfl rfl rfl rfl
  have hint := (claim_C1_integer_dispatch demoHandle "Gain" 7).1
    (ArvGcNode.integer 5 0 10) rfl rfl
  exact ⟨hno.1, hno.2, hint.2⟩

/-- C2 counterexample: on a device whose tree lacks the name, the string
getter returns NULL (`none`), not the empty string the claim asserts. -/
theorem claim_C2_counterexample :
    arv_device_get_feature demoHandle "Missing" = none ∧
    arv_device_get_string_feature_value demoHandle "Missing" ≠ some "" := by
  exact ⟨rfl, by decide⟩

/-- C2 as amended: for a name that does not resolve to a node, the integer
getter returns 0, the float getter 0.0, the string getter NULL (not the
empty string), and every setter is a no-op. -/
theorem claim_C2_missing_feature_sentinels (h : DeviceHandle) (f : String)
    (hf : arv_device_get_feature h f = none) :
    arv_device_get_integer_feature_value h f = 0 ∧
    arv_device_get_float_feature_value h f = 0 ∧
    arv_device_get_string_feature_value h f = none ∧
    (∀ v, arv_device_set_integer_feature_value h f v = h) ∧
    (∀ x, arv_device_set_float_feature_value h f x = h) ∧
    (∀ s, arv_device_set_string_feature_value h f s = h) := by
  refine ⟨?_, ?_, ?_, ?_, ?_, ?_⟩ <;>
    simp [arv_device_get_integer_feature_value,
      arv_device_get_float_feature_value,
      arv_device_get_string_feature_value,
      arv_device_set_integer_feature_value,
      arv_device_set_float_feature_value,
      arv_device_set_string_feature_value, hf]

/-- C2 amended witness: concrete sentinels on the demo device. -/
theorem claim_C2_missing_feature_sentinels_witness :
    arv_device_get_integer_feature_value demoHandle "Missing" = 0 ∧
    arv_device_get_string_feature_value demoHandle "Missing" = none ∧
    arv_device_set_integer_feature_value demoHandle "Missing" 3 = demoHandle := by
  have h := claim_C2_missing_feature_sentinels demoHandle "Missing" rfl
  exact ⟨h.1, h.2.2.1, h.2.2.2.1 3⟩

/-- C6: execute_command executes the node exactly when the name resolves to a
Command node; in every other case (absent name, invalid tree, other variant)
the device is left unchanged. -/
theorem claim_C6_execute_command (h : DeviceHandle) (f : String) :
    (∀ n, arv_device_get_feature h f = some n → n.isCommand = true →
        arv_device_execute_command h f =
          updateFeature h f (arv_gc_command_execute n)) ∧
    ((∀ n, arv_device_get_feature h f = some n → n.isCommand = false) →
        arv_device_execute_command h f = h) := by
  constructor
  · intro n hn hc
    unfold arv_device_execute_command
    cases hg : arv_device_get_genicam h with
    | none => simp [arv_device_get_feature, hg] at hn
    | some gc =>
        simp only [arv_device_get_feature, hg] at hn
        simp [hn, hc]
  · intro hall
    unfold arv_device_execute_command
    cases hg : arv_device_get_genicam h with
    | none => rfl
    | some gc =>
        cases hn : arv_gc_get_node gc f with
        | none => simp [hn]
        | some n =>
            have hnc := hall n (by simp [arv_device_get_feature, hg, hn])
            simp [hn, hnc]

/-- C6 witness: the Integer node is untouched, the Command node is
executed. -/
theorem claim_C6_execute_command_witness :
    arv_device_execute_command demoHandle "Gain" = demoHandle ∧
    arv_device_execute_command demoHandle "AcquisitionStart" =
      updateFeature demoHandle "AcquisitionStart" (ArvGcNode.command 1) := by
  constructor
  · refine (claim_C6_execute_command demoHandle "Gain").2 ?_
    intro n hn
    rw [show arv_device_get_feature demoHandle "Gain" =
        some (ArvGcNode.integer 5 0 10) from rfl] at hn
    injection hn with h3
    rw [← h3]
    rfl
  · exact (claim_C6_execute_command demoHandle "AcquisitionStart").1
      (ArvGcNode.command 0) rfl rfl

/-- C7: the integer bounds query writes its non-NULL output cells only for an
Integer node and the float bounds query only for a Float node; in every other
case both cells keep exactly their prior contents. -/
theorem claim_C7_bounds_frame (h : DeviceHandle) (f : String)
    (imin imax : Option Int) (fmin fmax : Option Rat) :
    (∀ n, arv_device_get_feature h f = some n → n.isInteger = true →
        arv_device_get_integer_feature_bounds h f imin imax =
          (imin.map (fun _ => arv_gc_integer_get_min n),
           imax.map (fun _ => arv_gc_integer_get_max n))) ∧
    ((∀ n, arv_device_get_feature h f = some n → n.isInteger = false) →
        arv_device_get_integer_feature_bounds h f imin imax = (imin, imax)) ∧
    (∀ n, arv_device_get_feature h f = some n → n.isFloat = true →
        arv_device_get_float_feature_bounds h f fmin fmax =
          (fmin.map (fun _ => arv_gc_float_get_min n),
           fmax.map (fun _ => arv_gc_float_get_max n))) ∧
    ((∀ n, arv_device_get_feature h f = some n → n.isFloat = false) →
        arv_device_get_float_feature_bounds h f fmin fmax = (fmin, fmax)) := by
  refine ⟨?_, ?_, ?_, ?_⟩
  · intro n hn hi
    simp [arv_device_get_integer_feature_bounds, hn, hi]
  · intro hall
    unfold arv_device_get_integer_feature_bounds
    cases hn : arv_device_get_feature h f with
    | none => rfl
    | some n => simp [hall n hn]
  · intro n hn hi
    simp [arv_device_get_float_feature_bounds, hn, hi]
  · intro hall
    unfold arv_device_get_float_feature_bounds
    cases hn : arv_device_get_feature h f with
    | none => rfl
    | some n => simp [hall n hn]

/-- C7 witness: integer bounds of the Integer node are written, float bounds
on the same node and integer bounds on the Float node are left untouched. -/
theorem claim_C7_bounds_frame_witness :
    arv_device_get_integer_feature_bounds demoHandle "Gain"
      (some 77) (some 88) = (some 0, some 10) ∧
    arv_device_get_float_feature_bounds demoHandle "Gain"
      (some 3) (some 4) = (some 3, some 4) ∧
    arv_device_get_integer_feature_bounds demoHandle "FrameRate"
      (some 77) (some 88) = (some 77, some 88) := by
  have hc := claim_C7_bounds_frame demoHandle "Gain"
    (some 77) (some 88) (some 3) (some 4)
  have hfr := claim_C7_bounds_frame demoHandle "FrameRate"
    (some 77) (some 88) (some 3) (some 4)
  refine ⟨hc.1 (ArvGcNode.integer 5 0 10) rfl rfl, ?_, ?_⟩
  · apply hc.2.2.2
    intro n hn
    rw [show arv_device_get_feature demoHandle "Gain" =
        some (ArvGcNode.integer 5 0 10) from rfl] at hn
    injection hn with h3
    rw [← h3]
    rfl
  · apply hfr.2.1
    intro n hn
    rw [show arv_device_get_feature demoHandle "FrameRate" =
        some (ArvGcNode.float 2 0 100) from rfl] at hn
    injection hn with h3
    rw [← h3]
    rfl

/-- C8: for a feature resolving to an Integer node with bounds [mn, mx] and a
value inside the bounds, setting the integer feature and reading it back
returns exactly that value. -/
theorem claim_C8_integer_roundtrip (h : DeviceHandle) (f : String)
    (v w mn mx : Int)
    (hn : arv_device_get_feature h f = some (.integer w mn mx))
    (_hlo : mn ≤ v) (_hhi : v ≤ mx) :
    arv_device_get_integer_feature_value
      (arv_device_set_integer_feature_value h f v) f = v := by
  have hset : arv_device_set_integer_feature_value h f v =
      updateFeature h f (ArvGcNode.integer v mn mx) := by
    simp [arv_device_set_integer_feature_value, hn, ArvGcNode.isInteger,
      arv_gc_integer_set_value]
  have hget : arv_device_get_feature
      (updateFeature h f (ArvGcNode.integer v mn mx)) f =
      some (ArvGcNode.integer v mn mx) :=
    get_feature_updateFeature h f _ _ hn
  rw [hset]
  simp [arv_device_get_integer_feature_value, hget, ArvGcNode.isInteger,
    arv_gc_integer_get_value]

/-- C8 witness: round-trip of 7 through the demo Gain node with bounds
[0, 10]. -/
theorem claim_C8_integer_roundtrip_witness :
    (0 : Int) ≤ 7 ∧ (7 : Int) ≤ 10 ∧
    arv_device_get_integer_feature_value
      (arv_device_set_integer_feature_value demoHandle "Gain" 7) "Gain" = 7 :=
  ⟨by decide, by decide,
   claim_C8_integer_roundtrip demoHandle "Gain" 7 5 0 10 rfl
     (by decide) (by decide)⟩
